import Mathlib

/-!
Verification of the gexec-sandbox code-execution service.

The development shallowly embeds the Go sources: the API types
(internal/api/types.go), the configuration (internal/config/config.go),
the sandbox orchestrator (internal/sandbox, the current version with the
container registry, request-timeout context and config-driven language
map), the IP rate limiter (internal/middleware/rate_limiter.go), the
metrics counters (internal/metrics) and the execute HTTP handler
(cmd/evaluator/main.go).

External effects (the Docker Engine client) are modelled by an oracle
that fixes the outcome of every runtime call, and each run is reified as
the list of runtime calls it makes, so that claims about call order,
registration and teardown become statements about that list.  Machine
strings are Lean strings; byte sequences are lists of naturals.
-/

namespace GexecSandbox

/-! ## Data model (internal/api/types.go) -/

/-- ExecutionRequest from internal/api/types.go: language identifier,
source text and requested timeout in milliseconds. -/
structure ExecutionRequest where
  language : String
  sourceCode : String
  timeoutMS : Int
deriving DecidableEq

/-- ExecutionResponse from internal/api/types.go.  Go carries stdout and
stderr as strings of raw bytes; they are modelled as byte lists.  The
error field is a message string, empty on success. -/
structure ExecutionResponse where
  stdout : List Nat
  stderr : List Nat
  exitCode : Int
  error : String
deriving DecidableEq

/-- The Go zero value api.ExecutionResponse\x7b\x7d returned on error paths. -/
def emptyResponse : ExecutionResponse :=
  { stdout := [], stderr := [], exitCode := 0, error := "" }

/-! ## Configuration (internal/config/config.go, current version) -/

/-- Config from internal/config/config.go.  The Go language map is
modelled as an association list (lookup is exact key equality, as for a
Go map). -/
structure Config where
  defaultTimeoutMS : Int
  maxMemoryMB : Int
  languages : List (String × String)
  ollamaHost : String
  ollamaModel : String
deriving DecidableEq

/-- The language-to-image table literal from LoadConfig. -/
def langTable : List (String × String) :=
  [("python", "python:3.9-slim"), ("py", "python:3.9-slim"),
   ("golang", "golang:1.24-alpine"), ("go", "golang:1.24-alpine")]

/-- LoadConfig from internal/config/config.go.  The two environment
variables are passed explicitly (empty string for an unset variable, as
os.Getenv reports).  A missing OLLAMA_MODEL makes LoadConfig panic; the
panic is modelled as the error branch of Except. -/
def LoadConfig (ollamaHostEnv ollamaModelEnv : String) : Except String Config :=
  if ollamaModelEnv = "" then
    Except.error "OLLAMA_MODEL environment variable is required"
  else
    Except.ok
      { defaultTimeoutMS := 60000
        maxMemoryMB := 256
        languages := langTable
        ollamaHost := if ollamaHostEnv = "" then "http://localhost:11434" else ollamaHostEnv
        ollamaModel := ollamaModelEnv }

/-- The configuration value produced by LoadConfig in a correctly set up
environment (OLLAMA_MODEL present, OLLAMA_HOST defaulted). -/
def cfgCurrent : Config :=
  { defaultTimeoutMS := 60000
    maxMemoryMB := 256
    languages := langTable
    ollamaHost := "http://localhost:11434"
    ollamaModel := "qwen3:4b" }

/-! ## String helpers from the Go standard library

The sandbox uses strings.ToLower, strings.HasPrefix, strings.ReplaceAll
and strings.Join.  They are embedded structurally over the character
lists of Lean strings; every input fed to ToLower in this codebase is
ASCII, where the ASCII mapping below coincides with Go's Unicode one. -/

/-- ASCII lower-casing of one character (Go strings.ToLower restricted
to ASCII, which covers every language identifier the code handles). -/
def charLower (c : Char) : Char :=
  if 65 ≤ c.toNat ∧ c.toNat ≤ 90 then Char.ofNat (c.toNat + 32) else c

/-- strings.ToLower on ASCII input. -/
def asciiToLower (s : String) : String := String.mk (s.data.map charLower)

/-- strings.HasPrefix. -/
def strStartsWith (s pre : String) : Bool := pre.data.isPrefixOf s.data

/-- The single-quote character, written by code point to keep source
literals free of quote characters. -/
def sqChar : Char := Char.ofNat 39

/-- The backslash character. -/
def bsChar : Char := Char.ofNat 92

/-- strings.ReplaceAll(s, quote, quote-backslash-quote-quote): the
escaping the sandbox applies to the untrusted source before splicing it
into the shell command.  ReplaceAll on a one-character pattern is a
per-character expansion. -/
def escapeSingleQuotes (s : String) : String :=
  String.mk ((s.data.map (fun c =>
    if c = sqChar then [sqChar, bsChar, sqChar, sqChar] else [c])).flatten)

/-! ## Sandbox orchestrator (internal/sandbox, current version) -/

/-- getCommand from the sandbox: prefix-matched, case-insensitively, on
the lower-cased language. -/
def getCommand (language : String) (filePath : String) (cfg : Config) : List String :=
  let lowerLang := asciiToLower language
  if strStartsWith lowerLang "py" then ["python", filePath]
  else if strStartsWith lowerLang "go" then ["go", "run", filePath]
  else [language, filePath]

/-- getExtension from the sandbox, same prefix matching as getCommand. -/
def getExtension (language : String) (cfg : Config) : String :=
  let lowerLang := asciiToLower language
  if strStartsWith lowerLang "py" then ".py"
  else if strStartsWith lowerLang "go" then ".go"
  else ".txt"

/-- The in-container file path /tmp/main plus extension. -/
def filePathFor (req : ExecutionRequest) (cfg : Config) : String :=
  "/tmp/main" ++ getExtension req.language cfg

/-- fullCmd from RunCodeInSandbox: fmt.Sprintf of the echo-redirect-run
pipeline with the single-quote-escaped source spliced in. -/
def fullCmdFor (req : ExecutionRequest) (cfg : Config) : String :=
  "echo " ++ String.mk [sqChar] ++ escapeSingleQuotes req.sourceCode ++ String.mk [sqChar]
    ++ " > " ++ filePathFor req cfg ++ " && "
    ++ String.intercalate " " (getCommand req.language (filePathFor req cfg) cfg)

/-- The Cmd vector handed to ContainerCreate. -/
def createCmd (req : ExecutionRequest) (cfg : Config) : List String :=
  ["sh", "-c", fullCmdFor req cfg]

/-- The Go context a runtime call is made under: context.Background(),
the per-request timeout context derived from req.TimeoutMS, the 10 s
cleanup context of CleanupAllContainers, or no context at all (plain
reads such as io.ReadAll take none). -/
inductive CtxKind where
  | background
  | timeoutCtx
  | cleanupCtx
  | noCtx
deriving DecidableEq

/-- One frame of the container's attached output: which stream it
belongs to and its payload bytes. -/
structure StreamFrame where
  isStderr : Bool
  payload : List Nat
deriving DecidableEq

/-- Big-endian four-byte encoding of a length, as byte values. -/
def be32 (n : Nat) : List Nat :=
  [n / 2 ^ 24 % 256, n / 2 ^ 16 % 256, n / 2 ^ 8 % 256, n % 256]

/-- Modelled from the Docker Engine API attach contract (the stdcopy
stream format): when a container is created with Tty disabled, the
attached output stream multiplexes stdout and stderr, prefixing each
frame with an 8-byte header -- a stream-type byte (1 stdout, 2 stderr),
three zero bytes, and the payload length as a big-endian uint32.
Recovering the plain streams requires stdcopy.StdCopy; a raw read
returns these headers and both streams interleaved. -/
def muxFrame (f : StreamFrame) : List Nat :=
  (if f.isStderr then 2 else 1) :: 0 :: 0 :: 0 :: be32 f.payload.length ++ f.payload

/-- The raw bytes io.ReadAll obtains from the attach reader. -/
def muxStream (fs : List StreamFrame) : List Nat := (fs.map muxFrame).flatten

/-- The bytes the program itself emitted on standard output: the
concatenated payloads of the stdout frames. -/
def programStdout (fs : List StreamFrame) : List Nat :=
  ((fs.filter (fun f => !f.isStderr)).map (fun f => f.payload)).flatten

/-- Outcome of the three-way select around ContainerWait: the error
channel fired, the timeout context expired, or the status channel
delivered a terminal state. -/
inductive WaitOutcome where
  | waitErr
  | ctxDone
  | statusOk
deriving DecidableEq

/-- Oracle fixing the outcome of every external runtime call one
invocation of RunCodeInSandbox makes. -/
structure RuntimeOracle where
  clientOk : Bool
  pullOk : Bool
  createOk : Bool
  containerID : String
  attachOk : Bool
  startOk : Bool
  waitOutcome : WaitOutcome
  readOk : Bool
  attachFrames : List StreamFrame
  inspectOk : Bool
  exitCode : Int
deriving DecidableEq

/-- Runtime calls a run makes, in order, each with the context kind it
was issued under. -/
inductive RuntimeEvent where
  | imagePull (ctx : CtxKind) (image : String)
  | containerCreate (ctx : CtxKind) (image : String) (cmd : List String)
      (networkDisabled : Bool) (memory : Int) (cpuQuota : Int)
  | registerC (id : String)
  | containerAttach (ctx : CtxKind) (id : String)
  | containerStart (ctx : CtxKind) (id : String)
  | containerWait (ctx : CtxKind) (id : String)
  | readAll (ctx : CtxKind) (id : String)
  | containerInspect (ctx : CtxKind) (id : String)
  | containerKill (ctx : CtxKind) (id : String) (signal : String)
  | containerRemove (ctx : CtxKind) (id : String) (force : Bool)
  | unregisterC (id : String)
  | closeClient
deriving DecidableEq

/-- registerContainer: insert the container id into the global map (a
Go map write; re-registering an existing key leaves the key set
unchanged). -/
def registerContainer (id : String) (reg : List String) : List String :=
  if id ∈ reg then reg else id :: reg

/-- unregisterContainer: delete the id from the map. -/
def unregisterContainer (id : String) (reg : List String) : List String :=
  reg.erase id

/-- Error message constants of RunCodeInSandbox (the wrapped inner
error text of fmt.Errorf is abstracted away; only the fixed prefix is
kept). -/
def errClientMsg : String := "failed to create docker client"

/-- Pull failure message. -/
def errPullMsg : String := "failed to pull image"

/-- Create failure message. -/
def errCreateMsg : String := "failed to create container"

/-- Attach failure message. -/
def errAttachMsg : String := "failed to attach to container"

/-- Start failure message. -/
def errStartMsg : String := "failed to start container"

/-- Wait-channel error message. -/
def errWaitMsg : String := "error waiting for container"

/-- The timeout message, fmt.Errorf of the ctx.Done branch. -/
def errTimeoutMsg : String := "execution timed out"

/-- Output read failure message. -/
def errReadMsg : String := "failed to read container output"

/-- Inspect failure message. -/
def errInspectMsg : String := "failed to inspect container"

/-- The unsupported-language message, naming the offending language. -/
def unsupportedMsg (lang : String) : String := "unsupported language: " ++ lang

/-- Result of one orchestrator invocation: the response and error
returned, the ordered runtime calls made, and the registry state left
behind. -/
structure RunResult where
  resp : ExecutionResponse
  err : Option String
  events : List RuntimeEvent
  registry : List String
deriving DecidableEq

/-- The deferred teardown installed right after registration: kill with
SIGKILL and force-remove, both under context.Background(), then drop the
id from the registry.  It runs on every return path that follows. -/
def teardownEvents (id : String) : List RuntimeEvent :=
  [RuntimeEvent.containerKill CtxKind.background id "SIGKILL",
   RuntimeEvent.containerRemove CtxKind.background id true,
   RuntimeEvent.unregisterC id]

/-- Assemble the result of a return path taken after registration: the
branch's own calls, then the deferred teardown, then the deferred client
close, with the id unregistered. -/
def finishRun (id : String) (pre mid : List RuntimeEvent) (reg : List String)
    (resp : ExecutionResponse) (err : Option String) : RunResult :=
  { resp := resp, err := err,
    events := pre ++ mid ++ teardownEvents id ++ [RuntimeEvent.closeClient],
    registry := unregisterContainer id reg }

/-- The portion of RunCodeInSandbox after the container is created and
registered: attach, start, the three-way wait select, the output read
and the final inspect, every return going through the deferred
teardown. -/
def afterRegister (o : RuntimeOracle) (id : String) (pre : List RuntimeEvent)
    (reg : List String) : RunResult :=
  if o.attachOk = false then
    finishRun id pre [RuntimeEvent.containerAttach CtxKind.timeoutCtx id] reg
      emptyResponse (some errAttachMsg)
  else if o.startOk = false then
    finishRun id pre
      [RuntimeEvent.containerAttach CtxKind.timeoutCtx id,
       RuntimeEvent.containerStart CtxKind.timeoutCtx id] reg
      emptyResponse (some errStartMsg)
  else
    match o.waitOutcome with
    | WaitOutcome.waitErr =>
      finishRun id pre
        [RuntimeEvent.containerAttach CtxKind.timeoutCtx id,
         RuntimeEvent.containerStart CtxKind.timeoutCtx id,
         RuntimeEvent.containerWait CtxKind.timeoutCtx id] reg
        emptyResponse (some errWaitMsg)
    | WaitOutcome.ctxDone =>
      finishRun id pre
        [RuntimeEvent.containerAttach CtxKind.timeoutCtx id,
         RuntimeEvent.containerStart CtxKind.timeoutCtx id,
         RuntimeEvent.containerWait CtxKind.timeoutCtx id] reg
        emptyResponse (some errTimeoutMsg)
    | WaitOutcome.statusOk =>
      if o.readOk = false then
        finishRun id pre
          [RuntimeEvent.containerAttach CtxKind.timeoutCtx id,
           RuntimeEvent.containerStart CtxKind.timeoutCtx id,
           RuntimeEvent.containerWait CtxKind.timeoutCtx id,
           RuntimeEvent.readAll CtxKind.noCtx id] reg
          emptyResponse (some errReadMsg)
      else if o.inspectOk = false then
        finishRun id pre
          [RuntimeEvent.containerAttach CtxKind.timeoutCtx id,
           RuntimeEvent.containerStart CtxKind.timeoutCtx id,
           RuntimeEvent.containerWait CtxKind.timeoutCtx id,
           RuntimeEvent.readAll CtxKind.noCtx id,
           RuntimeEvent.containerInspect CtxKind.timeoutCtx id] reg
          emptyResponse (some errInspectMsg)
      else
        finishRun id pre
          [RuntimeEvent.containerAttach CtxKind.timeoutCtx id,
           RuntimeEvent.containerStart CtxKind.timeoutCtx id,
           RuntimeEvent.containerWait CtxKind.timeoutCtx id,
           RuntimeEvent.readAll CtxKind.noCtx id,
           RuntimeEvent.containerInspect CtxKind.timeoutCtx id] reg
          { stdout := muxStream o.attachFrames, stderr := [],
            exitCode := o.exitCode, error := "" }
          none

/-- RunCodeInSandbox from the current sandbox source: create the Docker
client, resolve the language in the config map, pull the image under a
background context, create the timeout context, create the
network-disabled resource-bounded container with the sh -c command,
register it, then attach, start, wait with the three-way select, read
the raw attach stream, inspect, and tear down on every path. -/
def RunCodeInSandbox (req : ExecutionRequest) (cfg : Config) (o : RuntimeOracle)
    (reg : List String) : RunResult :=
  if o.clientOk = false then
    { resp := emptyResponse, err := some errClientMsg, events := [], registry := reg }
  else
    match cfg.languages.lookup req.language with
    | none =>
      { resp := { emptyResponse with error := unsupportedMsg req.language },
        err := some (unsupportedMsg req.language),
        events := [RuntimeEvent.closeClient],
        registry := reg }
    | some imageName =>
      if o.pullOk = false then
        { resp := emptyResponse, err := some errPullMsg,
          events := [RuntimeEvent.imagePull CtxKind.background imageName,
                     RuntimeEvent.closeClient],
          registry := reg }
      else
        if o.createOk = false then
          { resp := emptyResponse, err := some errCreateMsg,
            events := [RuntimeEvent.imagePull CtxKind.background imageName,
                       RuntimeEvent.containerCreate CtxKind.timeoutCtx imageName
                         (createCmd req cfg) true (cfg.maxMemoryMB * 1024 * 1024) 50000,
                       RuntimeEvent.closeClient],
            registry := reg }
        else
          afterRegister o o.containerID
            [RuntimeEvent.imagePull CtxKind.background imageName,
             RuntimeEvent.containerCreate CtxKind.timeoutCtx imageName
               (createCmd req cfg) true (cfg.maxMemoryMB * 1024 * 1024) 50000,
             RuntimeEvent.registerC o.containerID]
            (registerContainer o.containerID reg)

/-- The kill, remove and close calls CleanupAllContainers issues for one
registered entry, under its own 10-second context. -/
def cleanupEventsFor (id : String) : List RuntimeEvent :=
  [RuntimeEvent.containerKill CtxKind.cleanupCtx id "SIGKILL",
   RuntimeEvent.containerRemove CtxKind.cleanupCtx id true,
   RuntimeEvent.closeClient]

/-- CleanupAllContainers from the sandbox: under the read lock it
iterates the registry, issuing kill, force-remove and client close for
each entry.  It never deletes map entries, so the registry it leaves
behind is the one it started from. -/
def CleanupAllContainers (reg : List String) : List RuntimeEvent × List String :=
  ((reg.map cleanupEventsFor).flatten, reg)

/-! ## Rate limiter (internal/middleware/rate_limiter.go)

The per-key buckets are values of golang.org/x/time/rate.Limiter; that
library is embedded through its documented token-bucket contract: a
limiter permits bursts of at most burst tokens, starts full, refills
continuously at limit tokens per second capped at burst, and Allow
consumes one token when at least one is available, otherwise denies and
leaves the state untouched.  Time is a rational number of seconds. -/

/-- State of one rate.Limiter: rate, burst, current tokens and the time
of the last state change. -/
structure RateLimiter where
  r : ℚ
  b : ℕ
  tokens : ℚ
  last : ℚ
deriving DecidableEq

/-- rate.NewLimiter: a fresh bucket at full burst capacity. -/
def NewLimiter (r : ℚ) (b : ℕ) : RateLimiter :=
  { r := r, b := b, tokens := (b : ℚ), last := 0 }

/-- Limiter.Allow at time t: refill for the elapsed interval capped at
burst, then consume one token if at least one is available. -/
def allowAt (l : RateLimiter) (t : ℚ) : Bool × RateLimiter :=
  let tk := min (l.b : ℚ) (l.tokens + (t - l.last) * l.r)
  if 1 ≤ tk then (true, { l with tokens := tk - 1, last := t }) else (false, l)

/-- n consecutive Allow calls at the same instant. -/
def allowN (l : RateLimiter) (t : ℚ) : ℕ → List Bool × RateLimiter
  | 0 => ([], l)
  | n + 1 =>
    let p := allowAt l t
    let q := allowN p.2 t n
    (p.1 :: q.1, q.2)

/-- IPRateLimiter from internal/middleware/rate_limiter.go: the bucket
map plus the rate and burst every new bucket is created with. -/
structure IPRateLimiter where
  ips : List (String × RateLimiter)
  r : ℚ
  b : ℕ

/-- NewIPRateLimiter: empty bucket map. -/
def NewIPRateLimiter (r : ℚ) (b : ℕ) : IPRateLimiter :=
  { ips := [], r := r, b := b }

/-- getLimiter: look the key up in the map; on first sighting create a
fresh limiter with the configured rate and burst and store it. -/
def getLimiter (i : IPRateLimiter) (ip : String) : RateLimiter × IPRateLimiter :=
  match i.ips.lookup ip with
  | some l => (l, i)
  | none => (NewLimiter i.r i.b, { i with ips := (ip, NewLimiter i.r i.b) :: i.ips })

/-- Store the mutated limiter back under its key (the Go code shares the
limiter by pointer; functionally it is a map update). -/
def updateLimiter (ips : List (String × RateLimiter)) (key : String) (l : RateLimiter) :
    List (String × RateLimiter) :=
  ips.map (fun p => if p.1 = key then (key, l) else p)

/-- What the middleware did with a request: whether it forwarded to the
wrapped handler (and hence could reach the orchestrator) and the HTTP
status it produced itself on denial. -/
structure MWResult where
  invokesNext : Bool
  status : Nat
deriving DecidableEq

/-- Middleware from rate_limiter.go for one request at time t: derive
the limiter for the key, call Allow, and either forward to the next
handler or answer 429 Too Many Requests without forwarding. -/
def MiddlewareStep (i : IPRateLimiter) (ip : String) (t : ℚ) : MWResult × IPRateLimiter :=
  let gl := getLimiter i ip
  let al := allowAt gl.1 t
  let i2 := { gl.2 with ips := updateLimiter gl.2.ips ip al.2 }
  if al.1 then ({ invokesNext := true, status := 200 }, i2)
  else ({ invokesNext := false, status := 429 }, i2)

/-! ## Metrics (internal/metrics) and the execute handler
(cmd/evaluator/main.go, current version) -/

/-- The two process-wide counters. -/
structure Metrics where
  totalRequests : Nat
  totalErrors : Nat
deriving DecidableEq

/-- IncrementRequest: atomic add of one to the request counter. -/
def IncrementRequest (m : Metrics) : Metrics :=
  { m with totalRequests := m.totalRequests + 1 }

/-- IncrementError: atomic add of one to the error counter. -/
def IncrementError (m : Metrics) : Metrics :=
  { m with totalErrors := m.totalErrors + 1 }

/-- The transport-level facts of one request to the execute handler:
the HTTP method check, body read and JSON decode outcomes, the decoded
request, and the runtime oracle its sandbox run sees. -/
structure HandlerInput where
  methodPost : Bool
  bodyReadOk : Bool
  jsonOk : Bool
  req : ExecutionRequest
  oracle : RuntimeOracle

/-- What one executeHandler invocation did: status written, how many
times each metrics counter was incremented, and the registry state
afterwards. -/
structure HandlerOutcome where
  status : Nat
  reqIncs : Nat
  errIncs : Nat
  registry : List String
deriving DecidableEq

/-- The tail of executeHandler after the sandbox call: a sandbox error
answers 400 and increments the error counter once; a success answers
200 and leaves the error counter alone. -/
def respondRun (run : RunResult) : HandlerOutcome :=
  match run.err with
  | some _ => { status := 400, reqIncs := 1, errIncs := 1, registry := run.registry }
  | none => { status := 200, reqIncs := 1, errIncs := 0, registry := run.registry }

/-- The timeout defaulting the handler applies before calling the
sandbox: a zero timeout_ms is replaced by the configured default. -/
def defaultedReq (cfg : Config) (req : ExecutionRequest) : ExecutionRequest :=
  if req.timeoutMS = 0 then { req with timeoutMS := cfg.defaultTimeoutMS } else req

/-- executeHandler from cmd/evaluator/main.go: IncrementRequest on
entry; then each rejection path (wrong method, body read failure, bad
JSON, empty source) answers an error and increments the error counter
once; otherwise the timeout is defaulted and the sandbox is invoked,
with its outcome translated by respondRun. -/
def executeHandler (cfg : Config) (inp : HandlerInput) (reg : List String) :
    HandlerOutcome :=
  if inp.methodPost = false then
    { status := 405, reqIncs := 1, errIncs := 1, registry := reg }
  else if inp.bodyReadOk = false then
    { status := 400, reqIncs := 1, errIncs := 1, registry := reg }
  else if inp.jsonOk = false then
    { status := 400, reqIncs := 1, errIncs := 1, registry := reg }
  else if inp.req.sourceCode = "" then
    { status := 400, reqIncs := 1, errIncs := 1, registry := reg }
  else
    respondRun (RunCodeInSandbox (defaultedReq cfg inp.req) cfg inp.oracle reg)

/-- Apply one handler invocation to the metrics counters. -/
def applyHandler (cfg : Config) (m : Metrics) (reg : List String) (inp : HandlerInput) :
    Metrics × List String :=
  let h := executeHandler cfg inp reg
  ({ totalRequests := m.totalRequests + h.reqIncs,
     totalErrors := m.totalErrors + h.errIncs }, h.registry)

/-- Fold a sequence of handler invocations over the metrics counters
and the registry. -/
def runHandlers (cfg : Config) : Metrics → List String → List HandlerInput →
    Metrics × List String
  | m, reg, [] => (m, reg)
  | m, reg, inp :: rest =>
    let p := applyHandler cfg m reg inp
    runHandlers cfg p.1 p.2 rest

/-! ## Concrete fixtures -/

/-- The spec's concrete python request. -/
def pyReq : ExecutionRequest :=
  { language := "python", sourceCode := "print(2+2)", timeoutMS := 5000 }

/-- The spec's concrete unsupported-language request. -/
def rubyReq : ExecutionRequest :=
  { language := "ruby", sourceCode := "puts 1", timeoutMS := 5000 }

/-- An oracle for a fully successful run: every call succeeds, the
container is c0, the program emits the bytes of 4 and a newline on
stdout (one stdout frame) and exits 0. -/
def oracleOK : RuntimeOracle :=
  { clientOk := true, pullOk := true, createOk := true, containerID := "c0",
    attachOk := true, startOk := true, waitOutcome := WaitOutcome.statusOk,
    readOk := true, attachFrames := [{ isStderr := false, payload := [52, 10] }],
    inspectOk := true, exitCode := 0 }

/-- Same oracle except the wait select is won by the expired timeout
context. -/
def oracleTimeout : RuntimeOracle :=
  { oracleOK with waitOutcome := WaitOutcome.ctxDone }

/-! ## Theorems -/

/-- C1: the claim says the command vector handed to ContainerCreate
never embeds source_code into a concatenated shell command string; the
code does the opposite.  At the concrete request
(language python, source print(2+2)) the created command vector is
exactly a sh -c invocation whose third element is a shell string with
the untrusted source spliced into it (the source text occurs verbatim
inside the shell word). -/
theorem C1_create_embeds_source_in_shell_string :
    createCmd pyReq cfgCurrent =
      ["sh", "-c", "echo \x27print(2+2)\x27 > /tmp/main.py && python /tmp/main.py"] ∧
    List.IsInfix pyReq.sourceCode.data ((createCmd pyReq cfgCurrent).getD 2 "").data ∧
    RuntimeEvent.containerCreate CtxKind.timeoutCtx "python:3.9-slim"
        (createCmd pyReq cfgCurrent) true (256 * 1024 * 1024) 50000 ∈
      (RunCodeInSandbox pyReq cfgCurrent oracleOK []).events := by
  refine ⟨by decide, ⟨"echo \x27".data,
    "\x27 > /tmp/main.py && python /tmp/main.py".data, by decide⟩, by decide⟩

/-- C4: on the concrete python request whose program emits exactly the
bytes 52 10 (the text 4 plus newline) on stdout and exits 0, the
response's stdout field is the raw multiplexed attach stream -- the
8-byte stdcopy frame header followed by the payload -- and not the
program's emitted bytes; exit code and empty error do hold. -/
theorem C4_stdout_is_raw_mux_stream :
    programStdout oracleOK.attachFrames = [52, 10] ∧
    (RunCodeInSandbox pyReq cfgCurrent oracleOK []).resp.stdout =
      [1, 0, 0, 0, 0, 0, 0, 2, 52, 10] ∧
    (RunCodeInSandbox pyReq cfgCurrent oracleOK []).resp.stdout ≠
      programStdout oracleOK.attachFrames ∧
    (RunCodeInSandbox pyReq cfgCurrent oracleOK []).resp.exitCode = 0 ∧
    (RunCodeInSandbox pyReq cfgCurrent oracleOK []).resp.error = "" ∧
    (RunCodeInSandbox pyReq cfgCurrent oracleOK []).err = none := by
  decide

/-- C10: the language-to-image lookup is exact and case-sensitive over
the lowercase configured keys, so Python and GO are rejected as
unsupported even though the command and extension helpers lower-case
their input and treat them like python and go. -/
theorem C10_language_lookup_case_sensitive :
    cfgCurrent.languages.lookup "Python" = none ∧
    cfgCurrent.languages.lookup "python" = some "python:3.9-slim" ∧
    cfgCurrent.languages.lookup "GO" = none ∧
    cfgCurrent.languages.lookup "go" = some "golang:1.24-alpine" ∧
    (RunCodeInSandbox { language := "Python", sourceCode := "print(2+2)", timeoutMS := 5000 }
        cfgCurrent oracleOK []).err = some (unsupportedMsg "Python") ∧
    (RunCodeInSandbox { language := "Python", sourceCode := "print(2+2)", timeoutMS := 5000 }
        cfgCurrent oracleOK []).resp.error = unsupportedMsg "Python" ∧
    getCommand "Python" "/tmp/main.py" cfgCurrent = getCommand "python" "/tmp/main.py" cfgCurrent ∧
    getExtension "Python" cfgCurrent = ".py" ∧
    getCommand "GO" "/tmp/main.go" cfgCurrent = getCommand "go" "/tmp/main.go" cfgCurrent ∧
    getExtension "GO" cfgCurrent = ".go" := by
  decide

/-- C2, counterexample: with one instance registered, cleanupAll leaves
the registry with that entry still present, not with zero entries as the
claim states. -/
theorem C2_counterexample_registry_not_emptied :
    (CleanupAllContainers ["c1"]).2 = ["c1"] ∧ (CleanupAllContainers ["c1"]).2 ≠ [] := by
  decide

/-- C2, amended: cleanupAll issues a kill and a force-remove (and a
client close) for every instance_id registered at the start of the
call, but it leaves the registry exactly as it found it -- the map is
iterated under a read lock and entries are never deleted. -/
theorem C2_cleanup_kills_all_but_registry_unchanged (reg : List String) (id : String)
    (h : id ∈ reg) :
    RuntimeEvent.containerKill CtxKind.cleanupCtx id "SIGKILL" ∈ (CleanupAllContainers reg).1 ∧
    RuntimeEvent.containerRemove CtxKind.cleanupCtx id true ∈ (CleanupAllContainers reg).1 ∧
    RuntimeEvent.closeClient ∈ (CleanupAllContainers reg).1 ∧
    (CleanupAllContainers reg).2 = reg := by
  refine ⟨?_, ?_, ?_, rfl⟩ <;>
  · simp only [CleanupAllContainers, List.mem_flatten]
    exact ⟨cleanupEventsFor id, List.mem_map_of_mem _ h, by simp [cleanupEventsFor]⟩

/-- C2, witness for the amended theorem at a registry holding one
container. -/
theorem C2_cleanup_witness :
    "c1" ∈ ["c1"] ∧
    (RuntimeEvent.containerKill CtxKind.cleanupCtx "c1" "SIGKILL" ∈
        (CleanupAllContainers ["c1"]).1 ∧
     RuntimeEvent.containerRemove CtxKind.cleanupCtx "c1" true ∈
        (CleanupAllContainers ["c1"]).1 ∧
     RuntimeEvent.closeClient ∈ (CleanupAllContainers ["c1"]).1 ∧
     (CleanupAllContainers ["c1"]).2 = ["c1"]) :=
  ⟨by decide, C2_cleanup_kills_all_but_registry_unchanged ["c1"] "c1" (by decide)⟩

/-- C5: when the Docker client is available and the request's language
is not a key of the configured language map, the run returns the
validation error naming the language, both as the response error field
and as the Go error, makes no runtime call (the only event is the
deferred client close) and leaves the registry untouched. -/
theorem C5_unsupported_language_no_runtime_calls (req : ExecutionRequest) (cfg : Config)
    (o : RuntimeOracle) (reg : List String)
    (hc : o.clientOk = true)
    (hl : cfg.languages.lookup req.language = none) :
    (RunCodeInSandbox req cfg o reg).err = some (unsupportedMsg req.language) ∧
    (RunCodeInSandbox req cfg o reg).resp.error = unsupportedMsg req.language ∧
    (RunCodeInSandbox req cfg o reg).events = [RuntimeEvent.closeClient] ∧
    (RunCodeInSandbox req cfg o reg).registry = reg := by
  simp [RunCodeInSandbox, hc, hl, emptyResponse]

/-- C5, witness at the spec's ruby request against the current
configuration. -/
theorem C5_unsupported_language_witness :
    oracleOK.clientOk = true ∧
    cfgCurrent.languages.lookup rubyReq.language = none ∧
    ((RunCodeInSandbox rubyReq cfgCurrent oracleOK []).err =
        some (unsupportedMsg rubyReq.language) ∧
     (RunCodeInSandbox rubyReq cfgCurrent oracleOK []).resp.error =
        unsupportedMsg rubyReq.language ∧
     (RunCodeInSandbox rubyReq cfgCurrent oracleOK []).events = [RuntimeEvent.closeClient] ∧
     (RunCodeInSandbox rubyReq cfgCurrent oracleOK []).registry = []) :=
  ⟨rfl, by decide,
   C5_unsupported_language_no_runtime_calls rubyReq cfgCurrent oracleOK [] rfl (by decide)⟩

/-- C3: when the program outlives its timeout (the wait select is won
by the expired deadline context), the run fails with the distinct
timeout message -- different from every other failure message of the
pipeline -- and on that same return path the instance is killed,
force-removed and unregistered, leaving it absent from the registry. -/
theorem C3_timeout_distinct_error_and_teardown (req : ExecutionRequest) (cfg : Config)
    (o : RuntimeOracle) (reg : List String) (imageName : String)
    (hc : o.clientOk = true) (hl : cfg.languages.lookup req.language = some imageName)
    (hp : o.pullOk = true) (hcr : o.createOk = true) (ha : o.attachOk = true)
    (hs : o.startOk = true) (hw : o.waitOutcome = WaitOutcome.ctxDone)
    (hid : o.containerID ∉ reg) :
    (RunCodeInSandbox req cfg o reg).err = some errTimeoutMsg ∧
    errTimeoutMsg ∉ [errClientMsg, errPullMsg, errCreateMsg, errAttachMsg, errStartMsg,
      errWaitMsg, errReadMsg, errInspectMsg] ∧
    RuntimeEvent.containerKill CtxKind.background o.containerID "SIGKILL" ∈
      (RunCodeInSandbox req cfg o reg).events ∧
    RuntimeEvent.containerRemove CtxKind.background o.containerID true ∈
      (RunCodeInSandbox req cfg o reg).events ∧
    RuntimeEvent.unregisterC o.containerID ∈ (RunCodeInSandbox req cfg o reg).events ∧
    (RunCodeInSandbox req cfg o reg).registry = reg ∧
    o.containerID ∉ (RunCodeInSandbox req cfg o reg).registry := by
  refine ⟨?_, by decide, ?_, ?_, ?_, ?_, ?_⟩ <;>
    simp [RunCodeInSandbox, hc, hl, hp, hcr, afterRegister, ha, hs, hw, finishRun,
      teardownEvents, registerContainer, unregisterContainer, hid]

/-- C3, witness: the python request with a run that times out. -/
theorem C3_timeout_witness :
    oracleTimeout.clientOk = true ∧
    cfgCurrent.languages.lookup pyReq.language = some "python:3.9-slim" ∧
    oracleTimeout.waitOutcome = WaitOutcome.ctxDone ∧
    ((RunCodeInSandbox pyReq cfgCurrent oracleTimeout []).err = some errTimeoutMsg ∧
     errTimeoutMsg ∉ [errClientMsg, errPullMsg, errCreateMsg, errAttachMsg, errStartMsg,
       errWaitMsg, errReadMsg, errInspectMsg] ∧
     RuntimeEvent.containerKill CtxKind.background oracleTimeout.containerID "SIGKILL" ∈
       (RunCodeInSandbox pyReq cfgCurrent oracleTimeout []).events ∧
     RuntimeEvent.containerRemove CtxKind.background oracleTimeout.containerID true ∈
       (RunCodeInSandbox pyReq cfgCurrent oracleTimeout []).events ∧
     RuntimeEvent.unregisterC oracleTimeout.containerID ∈
       (RunCodeInSandbox pyReq cfgCurrent oracleTimeout []).events ∧
     (RunCodeInSandbox pyReq cfgCurrent oracleTimeout []).registry = [] ∧
     oracleTimeout.containerID ∉ (RunCodeInSandbox pyReq cfgCurrent oracleTimeout []).registry) :=
  ⟨rfl, by decide, rfl,
   C3_timeout_distinct_error_and_teardown pyReq cfgCurrent oracleTimeout [] "python:3.9-slim"
     rfl (by decide) rfl rfl rfl rfl rfl (by decide)⟩

/-- C6: whenever the container is created (client, lookup, pull and
create all succeeded), the run's call sequence starts with pull, create
and register -- so registration precedes the attach and start calls,
which can only occur in the middle segment -- and ends with the
deferred kill, force-remove and unregister followed by the client
close, on every exit path; the registry is left as it was found. -/
theorem C6_registered_before_start_torn_down_every_path (req : ExecutionRequest)
    (cfg : Config) (o : RuntimeOracle) (reg : List String) (imageName : String)
    (hc : o.clientOk = true) (hl : cfg.languages.lookup req.language = some imageName)
    (hp : o.pullOk = true) (hcr : o.createOk = true) (hid : o.containerID ∉ reg) :
    (∃ mid : List RuntimeEvent,
      (RunCodeInSandbox req cfg o reg).events =
        [RuntimeEvent.imagePull CtxKind.background imageName,
         RuntimeEvent.containerCreate CtxKind.timeoutCtx imageName (createCmd req cfg) true
           (cfg.maxMemoryMB * 1024 * 1024) 50000,
         RuntimeEvent.registerC o.containerID] ++ mid ++
          teardownEvents o.containerID ++ [RuntimeEvent.closeClient]) ∧
    (RunCodeInSandbox req cfg o reg).registry = reg := by
  have hrw : RunCodeInSandbox req cfg o reg =
      afterRegister o o.containerID
        [RuntimeEvent.imagePull CtxKind.background imageName,
         RuntimeEvent.containerCreate CtxKind.timeoutCtx imageName (createCmd req cfg) true
           (cfg.maxMemoryMB * 1024 * 1024) 50000,
         RuntimeEvent.registerC o.containerID]
        (o.containerID :: reg) := by
    simp [RunCodeInSandbox, hc, hl, hp, hcr, registerContainer, hid]
  rw [hrw]
  cases hA : o.attachOk <;> cases hS : o.startOk <;> cases hW : o.waitOutcome <;>
    cases hR : o.readOk <;> cases hI : o.inspectOk <;>
    simp [afterRegister, hA, hS, hW, hR, hI, finishRun, unregisterContainer] <;>
    first
    | exact ⟨[RuntimeEvent.containerAttach CtxKind.timeoutCtx o.containerID], rfl⟩
    | exact ⟨[RuntimeEvent.containerAttach CtxKind.timeoutCtx o.containerID,
              RuntimeEvent.containerStart CtxKind.timeoutCtx o.containerID], rfl⟩
    | exact ⟨[RuntimeEvent.containerAttach CtxKind.timeoutCtx o.containerID,
              RuntimeEvent.containerStart CtxKind.timeoutCtx o.containerID,
              RuntimeEvent.containerWait CtxKind.timeoutCtx o.containerID], rfl⟩
    | exact ⟨[RuntimeEvent.containerAttach CtxKind.timeoutCtx o.containerID,
              RuntimeEvent.containerStart CtxKind.timeoutCtx o.containerID,
              RuntimeEvent.containerWait CtxKind.timeoutCtx o.containerID,
              RuntimeEvent.readAll CtxKind.noCtx o.containerID], rfl⟩
    | exact ⟨[RuntimeEvent.containerAttach CtxKind.timeoutCtx o.containerID,
              RuntimeEvent.containerStart CtxKind.timeoutCtx o.containerID,
              RuntimeEvent.containerWait CtxKind.timeoutCtx o.containerID,
              RuntimeEvent.readAll CtxKind.noCtx o.containerID,
              RuntimeEvent.containerInspect CtxKind.timeoutCtx o.containerID], rfl⟩

/-- C6, witness at a concrete run that reaches the create step. -/
theorem C6_registered_witness :
    oracleOK.clientOk = true ∧
    cfgCurrent.languages.lookup pyReq.language = some "python:3.9-slim" ∧
    oracleOK.containerID ∉ ([] : List String) ∧
    ((∃ mid : List RuntimeEvent,
        (RunCodeInSandbox pyReq cfgCurrent oracleOK []).events =
          [RuntimeEvent.imagePull CtxKind.background "python:3.9-slim",
           RuntimeEvent.containerCreate CtxKind.timeoutCtx "python:3.9-slim"
             (createCmd pyReq cfgCurrent) true (cfgCurrent.maxMemoryMB * 1024 * 1024) 50000,
           RuntimeEvent.registerC oracleOK.containerID] ++ mid ++
            teardownEvents oracleOK.containerID ++ [RuntimeEvent.closeClient]) ∧
     (RunCodeInSandbox pyReq cfgCurrent oracleOK []).registry = []) :=
  ⟨rfl, by decide, by simp,
   C6_registered_before_start_torn_down_every_path pyReq cfgCurrent oracleOK []
     "python:3.9-slim" rfl (by decide) rfl rfl (by simp)⟩

/-- C7, counterexample: in a concrete successful run the image-pull
call is issued under the background context, not under the request
deadline, and the output read is a plain read under no context; only
create, attach, start, wait and inspect run under the deadline.  The
context kinds are distinct, so the pull and read suspension points are
not cancellable by the deadline used for the wait. -/
theorem C7_counterexample_pull_and_read_not_under_deadline :
    (RunCodeInSandbox pyReq cfgCurrent oracleOK []).events =
      [RuntimeEvent.imagePull CtxKind.background "python:3.9-slim",
       RuntimeEvent.containerCreate CtxKind.timeoutCtx "python:3.9-slim"
         (createCmd pyReq cfgCurrent) true (256 * 1024 * 1024) 50000,
       RuntimeEvent.registerC "c0",
       RuntimeEvent.containerAttach CtxKind.timeoutCtx "c0",
       RuntimeEvent.containerStart CtxKind.timeoutCtx "c0",
       RuntimeEvent.containerWait CtxKind.timeoutCtx "c0",
       RuntimeEvent.readAll CtxKind.noCtx "c0",
       RuntimeEvent.containerInspect CtxKind.timeoutCtx "c0",
       RuntimeEvent.containerKill CtxKind.background "c0" "SIGKILL",
       RuntimeEvent.containerRemove CtxKind.background "c0" true,
       RuntimeEvent.unregisterC "c0",
       RuntimeEvent.closeClient] ∧
    CtxKind.background ≠ CtxKind.timeoutCtx ∧
    CtxKind.noCtx ≠ CtxKind.timeoutCtx := by
  decide

/-- C7, amended: of the suspension points, the terminal-state wait (and
the create, attach, start and inspect calls) runs under the
request-timeout deadline context, but the image pull runs under a
background context created before that deadline exists, and the drained
output read takes no context at all; this holds of every run that
reaches the final inspect. -/
theorem C7_amended_context_assignment (req : ExecutionRequest) (cfg : Config)
    (o : RuntimeOracle) (reg : List String) (imageName : String)
    (hc : o.clientOk = true) (hl : cfg.languages.lookup req.language = some imageName)
    (hp : o.pullOk = true) (hcr : o.createOk = true) (ha : o.attachOk = true)
    (hs : o.startOk = true) (hw : o.waitOutcome = WaitOutcome.statusOk)
    (hrd : o.readOk = true) (hins : o.inspectOk = true) :
    (RunCodeInSandbox req cfg o reg).events =
      [RuntimeEvent.imagePull CtxKind.background imageName,
       RuntimeEvent.containerCreate CtxKind.timeoutCtx imageName (createCmd req cfg) true
         (cfg.maxMemoryMB * 1024 * 1024) 50000,
       RuntimeEvent.registerC o.containerID,
       RuntimeEvent.containerAttach CtxKind.timeoutCtx o.containerID,
       RuntimeEvent.containerStart CtxKind.timeoutCtx o.containerID,
       RuntimeEvent.containerWait CtxKind.timeoutCtx o.containerID,
       RuntimeEvent.readAll CtxKind.noCtx o.containerID,
       RuntimeEvent.containerInspect CtxKind.timeoutCtx o.containerID] ++
      teardownEvents o.containerID ++ [RuntimeEvent.closeClient] := by
  simp [RunCodeInSandbox, hc, hl, hp, hcr, afterRegister, ha, hs, hw, hrd, hins,
    finishRun, teardownEvents]

/-- C7, witness for the amended context assignment at the concrete
successful run. -/
theorem C7_amended_witness :
    oracleOK.clientOk = true ∧
    cfgCurrent.languages.lookup pyReq.language = some "python:3.9-slim" ∧
    oracleOK.waitOutcome = WaitOutcome.statusOk ∧
    (RunCodeInSandbox pyReq cfgCurrent oracleOK []).events =
      [RuntimeEvent.imagePull CtxKind.background "python:3.9-slim",
       RuntimeEvent.containerCreate CtxKind.timeoutCtx "python:3.9-slim"
         (createCmd pyReq cfgCurrent) true (cfgCurrent.maxMemoryMB * 1024 * 1024) 50000,
       RuntimeEvent.registerC oracleOK.containerID,
       RuntimeEvent.containerAttach CtxKind.timeoutCtx oracleOK.containerID,
       RuntimeEvent.containerStart CtxKind.timeoutCtx oracleOK.containerID,
       RuntimeEvent.containerWait CtxKind.timeoutCtx oracleOK.containerID,
       RuntimeEvent.readAll CtxKind.noCtx oracleOK.containerID,
       RuntimeEvent.containerInspect CtxKind.timeoutCtx oracleOK.containerID] ++
      teardownEvents oracleOK.containerID ++ [RuntimeEvent.closeClient] :=
  ⟨rfl, by decide, rfl,
   C7_amended_context_assignment pyReq cfgCurrent oracleOK [] "python:3.9-slim"
     rfl (by decide) rfl rfl rfl rfl rfl rfl rfl⟩

/-- Draining a bucket whose last refill instant is the current instant:
k consecutive Allow calls at time t all succeed and consume one token
each, provided at least k tokens are held and the held tokens respect
the burst cap. -/
theorem allowN_drain (t r : ℚ) (b : ℕ) :
    ∀ (k : ℕ) (c : ℚ), (k : ℚ) ≤ c → c ≤ (b : ℚ) →
      allowN { r := r, b := b, tokens := c, last := t } t k =
        (List.replicate k true, { r := r, b := b, tokens := c - (k : ℚ), last := t }) := by
  intro k
  induction k with
  | zero =>
    intro c _ _
    simp [allowN]
  | succ n ih =>
    intro c h1 h2
    have hn : (0 : ℚ) ≤ (n : ℚ) := Nat.cast_nonneg n
    have h1q : (n : ℚ) + 1 ≤ c := by push_cast at h1; linarith
    have hc1 : (1 : ℚ) ≤ c := by linarith
    have hstep : allowAt { r := r, b := b, tokens := c, last := t } t =
        (true, { r := r, b := b, tokens := c - 1, last := t }) := by
      simp [allowAt, sub_self, zero_mul, add_zero, min_eq_right h2, hc1]
    have hrest := ih (c - 1) (by linarith) (by linarith)
    have htok : c - 1 - (n : ℚ) = c - ((n : ℚ) + 1) := by ring
    simp [allowN, hstep, hrest, List.replicate_succ, htok]

/-- The first Allow against a freshly created bucket, at any
non-negative time: the refill is capped at the full burst, so it
succeeds and leaves one token fewer. -/
theorem NewLimiter_first_allow (r : ℚ) (n : ℕ) (t : ℚ) (hr : 0 ≤ r) (ht : 0 ≤ t) :
    allowAt (NewLimiter r (n + 1)) t =
      (true, { r := r, b := n + 1, tokens := (n : ℚ), last := t }) := by
  have hn : (0 : ℚ) ≤ (n : ℚ) := Nat.cast_nonneg n
  have hge : (0 : ℚ) ≤ t * r := mul_nonneg ht hr
  have hmin : min ((n : ℚ) + 1) ((n : ℚ) + 1 + t * r) = (n : ℚ) + 1 :=
    min_eq_left (by linarith)
  have h1 : (1 : ℚ) ≤ (n : ℚ) + 1 + t * r := by linarith
  have htok : (n : ℚ) + 1 - 1 = (n : ℚ) := by ring
  simp [allowAt, NewLimiter, hmin, h1, htok]

/-- C8: the admission limiter is a per-key token bucket.  A key first
seen gets a fresh bucket at full burst capacity; from that bucket,
burst-many Allow calls at one instant all succeed, the next one at the
same instant is denied, and one more is admitted after a further 1/rate
seconds; and the middleware forwards to the wrapped handler exactly when
Allow succeeds, answering 429 without forwarding on denial. -/
theorem C8_token_bucket_admission (r : ℚ) (b : ℕ) (t : ℚ) (key : String)
    (hr : 0 < r) (hb : 1 ≤ b) (ht : 0 ≤ t) :
    (getLimiter (NewIPRateLimiter r b) key).1 = NewLimiter r b ∧
    (NewLimiter r b).tokens = (b : ℚ) ∧
    (allowN (NewLimiter r b) t b).1 = List.replicate b true ∧
    (allowAt (allowN (NewLimiter r b) t b).2 t).1 = false ∧
    (allowAt (allowN (NewLimiter r b) t b).2 (t + 1 / r)).1 = true ∧
    (∀ (i : IPRateLimiter) (ip : String) (u : ℚ),
      (MiddlewareStep i ip u).1.invokesNext = (allowAt (getLimiter i ip).1 u).1 ∧
      ((allowAt (getLimiter i ip).1 u).1 = false →
        (MiddlewareStep i ip u).1.status = 429 ∧
        (MiddlewareStep i ip u).1.invokesNext = false)) := by
  obtain ⟨n, rfl⟩ : ∃ n, b = n + 1 := ⟨b - 1, (Nat.succ_pred_eq_of_pos hb).symm⟩
  have hfirst := NewLimiter_first_allow r n t (le_of_lt hr) ht
  have hdrain := allowN_drain t r (n + 1) n (n : ℚ) le_rfl
    (by push_cast; linarith [Nat.cast_nonneg (α := ℚ) n])
  have hseq : allowN (NewLimiter r (n + 1)) t (n + 1) =
      (List.replicate (n + 1) true,
       { r := r, b := n + 1, tokens := (n : ℚ) - (n : ℚ), last := t }) := by
    simp [allowN, hfirst, hdrain, List.replicate_succ]
  refine ⟨?_, rfl, ?_, ?_, ?_, ?_⟩
  · simp [getLimiter, NewIPRateLimiter]
  · rw [hseq]
  · rw [hseq]
    norm_num [allowAt]
  · rw [hseq]
    have h2 : r⁻¹ * r = 1 := inv_mul_cancel₀ (ne_of_gt hr)
    norm_num [allowAt, h2]
  · intro i ip u
    cases h : (allowAt (getLimiter i ip).1 u).1 <;>
      simp [MiddlewareStep, h]

/-- C8, witness: rate one token per second, burst two, a fresh key at
time zero. -/
theorem C8_token_bucket_witness :
    (0 : ℚ) < 1 ∧ 1 ≤ 2 ∧
    (getLimiter (NewIPRateLimiter 1 2) "k").1 = NewLimiter 1 2 ∧
    (allowN (NewLimiter 1 2) 0 2).1 = List.replicate 2 true ∧
    (allowAt (allowN (NewLimiter 1 2) 0 2).2 0).1 = false ∧
    (allowAt (allowN (NewLimiter 1 2) 0 2).2 (0 + 1 / 1)).1 = true :=
  ⟨by norm_num, by norm_num,
   (C8_token_bucket_admission 1 2 0 "k" (by norm_num) (by norm_num) le_rfl).1,
   (C8_token_bucket_admission 1 2 0 "k" (by norm_num) (by norm_num) le_rfl).2.2.1,
   (C8_token_bucket_admission 1 2 0 "k" (by norm_num) (by norm_num) le_rfl).2.2.2.1,
   (C8_token_bucket_admission 1 2 0 "k" (by norm_num) (by norm_num) le_rfl).2.2.2.2.1⟩

/-- Every executeHandler invocation increments the request counter
exactly once. -/
theorem executeHandler_reqIncs_one (cfg : Config) (inp : HandlerInput) (reg : List String) :
    (executeHandler cfg inp reg).reqIncs = 1 := by
  unfold executeHandler respondRun
  repeat' split
  all_goals rfl

/-- Every executeHandler invocation increments the error counter once
exactly when it does not answer 200, and not at all when it does. -/
theorem executeHandler_errIncs_status (cfg : Config) (inp : HandlerInput) (reg : List String) :
    (executeHandler cfg inp reg).errIncs =
      (if (executeHandler cfg inp reg).status = 200 then 0 else 1) := by
  unfold executeHandler respondRun
  repeat' split
  all_goals simp_all

/-- The error increment of one invocation is at most one. -/
theorem executeHandler_errIncs_le (cfg : Config) (inp : HandlerInput) (reg : List String) :
    (executeHandler cfg inp reg).errIncs ≤ 1 := by
  unfold executeHandler respondRun
  repeat' split
  all_goals simp

/-- Folding invocations preserves the error-below-request bound. -/
theorem runHandlers_le_aux (cfg : Config) :
    ∀ (invs : List HandlerInput) (m : Metrics) (reg : List String),
      m.totalErrors ≤ m.totalRequests →
      (runHandlers cfg m reg invs).1.totalErrors ≤
        (runHandlers cfg m reg invs).1.totalRequests := by
  intro invs
  induction invs with
  | nil =>
    intro m reg h
    simpa [runHandlers] using h
  | cons inp rest ih =>
    intro m reg h
    simp only [runHandlers, applyHandler]
    apply ih
    have h1 := executeHandler_errIncs_le cfg inp reg
    have h2 := executeHandler_reqIncs_one cfg inp reg
    simp only [h2]
    omega

/-- Folding invocations never decreases either counter. -/
theorem runHandlers_mono_aux (cfg : Config) :
    ∀ (invs : List HandlerInput) (m : Metrics) (reg : List String),
      m.totalRequests ≤ (runHandlers cfg m reg invs).1.totalRequests ∧
      m.totalErrors ≤ (runHandlers cfg m reg invs).1.totalErrors := by
  intro invs
  induction invs with
  | nil =>
    intro m reg
    simp [runHandlers]
  | cons inp rest ih =>
    intro m reg
    simp only [runHandlers, applyHandler]
    constructor
    · exact le_trans
        (Nat.le_add_right m.totalRequests (executeHandler cfg inp reg).reqIncs)
        (ih { totalRequests := m.totalRequests + (executeHandler cfg inp reg).reqIncs,
              totalErrors := m.totalErrors + (executeHandler cfg inp reg).errIncs }
           (executeHandler cfg inp reg).registry).1
    · exact le_trans
        (Nat.le_add_right m.totalErrors (executeHandler cfg inp reg).errIncs)
        (ih { totalRequests := m.totalRequests + (executeHandler cfg inp reg).reqIncs,
              totalErrors := m.totalErrors + (executeHandler cfg inp reg).errIncs }
           (executeHandler cfg inp reg).registry).2

/-- Splitting a fold of invocations at an append. -/
theorem runHandlers_append (cfg : Config) (l1 l2 : List HandlerInput) :
    ∀ (m : Metrics) (reg : List String),
      runHandlers cfg m reg (l1 ++ l2) =
        runHandlers cfg (runHandlers cfg m reg l1).1 (runHandlers cfg m reg l1).2 l2 := by
  induction l1 with
  | nil =>
    intro m reg
    simp [runHandlers]
  | cons inp rest ih =>
    intro m reg
    simp only [List.cons_append, runHandlers]
    exact ih _ _

/-- C9: every execute-handler invocation increments total_requests by
exactly one and total_errors by exactly one on each non-200 outcome and
zero on a 200 outcome; consequently, over any sequence of invocations
starting from zeroed counters, total_errors never exceeds
total_requests, and both counters are monotonically non-decreasing as
further invocations are appended. -/
theorem C9_metrics_monotone_and_bounded (cfg : Config) :
    (∀ (inp : HandlerInput) (reg : List String),
      (executeHandler cfg inp reg).reqIncs = 1 ∧
      (executeHandler cfg inp reg).errIncs =
        (if (executeHandler cfg inp reg).status = 200 then 0 else 1)) ∧
    (∀ (reg : List String) (invs : List HandlerInput),
      (runHandlers cfg { totalRequests := 0, totalErrors := 0 } reg invs).1.totalErrors ≤
        (runHandlers cfg { totalRequests := 0, totalErrors := 0 } reg invs).1.totalRequests) ∧
    (∀ (m : Metrics) (reg : List String) (invs more : List HandlerInput),
      (runHandlers cfg m reg invs).1.totalRequests ≤
        (runHandlers cfg m reg (invs ++ more)).1.totalRequests ∧
      (runHandlers cfg m reg invs).1.totalErrors ≤
        (runHandlers cfg m reg (invs ++ more)).1.totalErrors) := by
  refine ⟨fun inp reg =>
      ⟨executeHandler_reqIncs_one cfg inp reg, executeHandler_errIncs_status cfg inp reg⟩,
    fun reg invs => runHandlers_le_aux cfg invs _ reg (le_refl 0),
    fun m reg invs more => ?_⟩
  rw [runHandlers_append]
  exact runHandlers_mono_aux cfg more _ _

end GexecSandbox
